import Mathlib

/-!
Verification development for the nat20 Pixels-dice library.

This file gives a shallow embedding of the message codec (`nat20/msglib.py`,
`nat20/messages.py`), the link dispatch layer (`nat20/link.py`), and the
facade/discovery layer (`nat20/__init__.py`), together with theorems about
the embedded definitions.  Bytes are modelled as `List Nat` (each entry a
value 0..255), Python ints as `Int`, and fallible Python code as `Option`
or explicit result inductives.
-/

namespace Nat20

/-- Python runtime values that occur as message fields.  Python `bool` and
`IntEnum` values compare equal to plain ints of the same numeric value, so
they are all represented as `vint`; `datetime` instances (produced by
`datetime.datetime.fromtimestamp(n, tz=utc)`) are `vdt n` and never compare
equal to ints; strings are `vstr`. -/
inductive PyVal
  | vint (n : Int)
  | vstr (s : String)
  | vdt (epoch : Int)
deriving DecidableEq, Repr

/-- A concrete message instance: the numeric ID of its class plus its
dataclass fields in declaration order.  Python dataclass equality compares
the class (here: the ID) and the field tuple. -/
structure MsgVal where
  id : Nat
  fields : List PyVal
deriving DecidableEq, Repr

/-- One token of a `struct` format string (standard sizes, little-endian,
as selected by the `<` prefix that `BasicMessage.__init_subclass__`
prepends): `B`, `b`, `H`, `h`, `L`, and `Nx` padding. -/
inductive Tok
  | u8
  | i8
  | u16
  | i16
  | u32
  | pad (n : Nat)
deriving DecidableEq, Repr

/-- Byte size of one token (`struct.calcsize` contribution). -/
def tokSize : Tok → Nat
  | .u8 => 1
  | .i8 => 1
  | .u16 => 2
  | .i16 => 2
  | .u32 => 4
  | .pad n => n

/-- `struct.calcsize` of a whole format. -/
def sizeToks (toks : List Tok) : Nat :=
  (toks.map tokSize).sum

/-- Number of value-carrying (non-padding) tokens: the number of dataclass
fields the format expects. -/
def nonPadCount : List Tok → Nat
  | [] => 0
  | .pad _ :: ts => nonPadCount ts
  | _ :: ts => 1 + nonPadCount ts

/-- Pack one value-carrying token, as `struct.pack` does: `None` models a
raised `struct.error` (wrong type, e.g. a datetime or str, or an
out-of-range int). -/
def packTok : Tok → PyVal → Option (List Nat)
  | .u8, .vint n => if 0 ≤ n ∧ n < 256 then some [n.toNat] else none
  | .i8, .vint n => if -128 ≤ n ∧ n < 128 then some [(n % 256).toNat] else none
  | .u16, .vint n => if 0 ≤ n ∧ n < 65536 then some [n.toNat % 256, n.toNat / 256] else none
  | .i16, .vint n =>
    if -32768 ≤ n ∧ n < 32768 then
      some [(n % 65536).toNat % 256, (n % 65536).toNat / 256]
    else none
  | .u32, .vint n =>
    if 0 ≤ n ∧ n < 4294967296 then
      some [n.toNat % 256, n.toNat / 256 % 256, n.toNat / 65536 % 256, n.toNat / 16777216]
    else none
  | _, _ => none

/-- `struct.pack(format, *fields)`: padding emits zero bytes and consumes no
field; the field count must match the format exactly. -/
def packToks : List Tok → List PyVal → Option (List Nat)
  | [], [] => some []
  | .pad k :: ts, fs => (packToks ts fs).map (List.replicate k 0 ++ ·)
  | t :: ts, f :: fs =>
    match packTok t f, packToks ts fs with
    | some bs, some rest => some (bs ++ rest)
    | _, _ => none
  | _, _ => none

/-- Sign decoding of one byte for `b`. -/
def sgn8 (b : Nat) : Int := if b < 128 then (b : Int) else (b : Int) - 256

/-- Sign decoding of a 16-bit little-endian value for `h`. -/
def sgn16 (v : Nat) : Int := if v < 32768 then (v : Int) else (v : Int) - 65536

/-- `struct.unpack(format, blob)`: fails (raises `struct.error`) unless the
blob length is exactly `calcsize(format)`; padding bytes are skipped. -/
def unpackToks : List Tok → List Nat → Option (List PyVal)
  | [], [] => some []
  | [], _ :: _ => none
  | .u8 :: ts, b :: bs => (unpackToks ts bs).map (.vint (b : Int) :: ·)
  | .i8 :: ts, b :: bs => (unpackToks ts bs).map (.vint (sgn8 b) :: ·)
  | .u16 :: ts, b0 :: b1 :: bs =>
    (unpackToks ts bs).map (.vint ((b0 + 256 * b1 : Nat) : Int) :: ·)
  | .i16 :: ts, b0 :: b1 :: bs =>
    (unpackToks ts bs).map (.vint (sgn16 (b0 + 256 * b1)) :: ·)
  | .u32 :: ts, b0 :: b1 :: b2 :: b3 :: bs =>
    (unpackToks ts bs).map
      (.vint ((b0 + 256 * b1 + 65536 * b2 + 16777216 * b3 : Nat) : Int) :: ·)
  | .pad k :: ts, bs => if k ≤ bs.length then unpackToks ts (bs.drop k) else none
  | _, _ => none

end Nat20

namespace Nat20

/-- UTF-8 encoding of one Unicode scalar value, as `str.encode('utf-8')`
produces for one character. -/
def utf8EncodeChar (v : Nat) : List Nat :=
  if v < 128 then [v]
  else if v < 2048 then [192 + v / 64, 128 + v % 64]
  else if v < 65536 then [224 + v / 4096, 128 + v / 64 % 64, 128 + v % 64]
  else [240 + v / 262144, 128 + v / 4096 % 64, 128 + v / 64 % 64, 128 + v % 64]

/-- Is a byte a UTF-8 continuation byte? -/
def utf8Cont (b : Nat) : Bool := 128 ≤ b && b < 192

/-- UTF-8 decoding of a byte sequence into Unicode scalar values, as
`bytes.decode('utf-8')` does: one pass over the bytes carrying the partial
scalar `cur`, the number `need` of continuation bytes still expected, and
the minimum `lo` a completed scalar must reach (the overlong-encoding
check).  Stray continuation bytes, truncated sequences, overlong
encodings, surrogates and values beyond U+10FFFF are rejected (`None`
models a raised `UnicodeDecodeError`). -/
def utf8Fold : List Nat → Nat → Nat → Nat → Option (List Nat)
  | [], _, need, _ => if need = 0 then some [] else none
  | b :: bs, cur, need, lo =>
    if need = 0 then
      if b < 128 then (utf8Fold bs 0 0 0).map (b :: ·)
      else if b < 192 then none
      else if b < 224 then utf8Fold bs (b - 192) 1 128
      else if b < 240 then utf8Fold bs (b - 224) 2 2048
      else if b < 248 then utf8Fold bs (b - 240) 3 65536
      else none
    else if utf8Cont b then
      let v := cur * 64 + (b - 128)
      if need = 1 then
        if lo ≤ v ∧ Nat.isValidChar v then (utf8Fold bs 0 0 0).map (v :: ·)
        else none
      else utf8Fold bs v (need - 1) lo
    else none

/-- UTF-8 decoding of a whole byte sequence into scalar values. -/
def utf8DecodeScalars (bs : List Nat) : Option (List Nat) :=
  utf8Fold bs 0 0 0

/-- Encode a Python string to UTF-8 bytes (`str.encode('utf-8')`). -/
def utf8Encode (s : String) : List Nat :=
  (s.data.map (fun c => utf8EncodeChar c.toNat)).flatten

/-- Rebuild a string from decoded scalar values. -/
def scalarsToString (vs : List Nat) : Option String :=
  (vs.mapM (fun v => if Nat.isValidChar v then some (Char.ofNat v) else none)).map
    (fun cs => ⟨cs⟩)

/-- Decode UTF-8 bytes into a Python string (`bytes.decode('utf-8')`). -/
def utf8Decode (bs : List Nat) : Option String :=
  (utf8DecodeScalars bs).bind scalarsToString

/-- The post-`struct` conversions a concrete message class applies in its
`__struct_unpack__` override (enum constructor validation, `bool(...)`,
`datetime.datetime.fromtimestamp(..., tz=utc)`).  `idc` is the identity
conversion of classes with no override. -/
inductive Conv
  | idc
  | iAmADie
  | rollState
  | batteryLevel
  | requestRssi
  | notifyUser
  | notifyUserAck
deriving DecidableEq, Repr

/-- Python `bool(n)` re-read as an int (`True == 1`, `False == 0`). -/
def pyBool (n : Int) : Int := if n = 0 then 0 else 1

/-- Apply a message class's `__struct_unpack__` post-processing to the raw
unpacked fields.  `None` models a raised exception (e.g. an enum
constructor rejecting an out-of-range raw value), which `msglib.unpack`
turns into `UnpackError`.
  * `IAmADie`: validates `DesignAndColor` (0..12), `RollState_State`
    (0..4), `BatteryState` (0..5) and converts `build_timestamp` to a UTC
    datetime;
  * `RollState`: validates `RollState_State`;
  * `BatteryLevel`: validates `BatteryState` on its second field;
  * `RequestRssi`: validates `RequestMode` (0..2);
  * `NotifyUser`: applies `bool(...)` to `ok` and `cancel`;
  * `NotifyUserAck`: validates `OkCancel` (0..1). -/
def applyConv : Conv → List PyVal → Option (List PyVal)
  | .idc, fs => some fs
  | .iAmADie, [.vint lc, .vint d, .vint h, .vint pid, .vint fl, .vint ts,
               .vint rs, .vint rf, .vint bl, .vint bs] =>
    if 0 ≤ d ∧ d ≤ 12 ∧ 0 ≤ rs ∧ rs ≤ 4 ∧ 0 ≤ bs ∧ bs ≤ 5 then
      some [.vint lc, .vint d, .vint h, .vint pid, .vint fl, .vdt ts,
            .vint rs, .vint rf, .vint bl, .vint bs]
    else none
  | .rollState, [.vint s, .vint f] =>
    if 0 ≤ s ∧ s ≤ 4 then some [.vint s, .vint f] else none
  | .batteryLevel, [.vint l, .vint s] =>
    if 0 ≤ s ∧ s ≤ 5 then some [.vint l, .vint s] else none
  | .requestRssi, [.vint m, .vint i] =>
    if 0 ≤ m ∧ m ≤ 2 then some [.vint m, .vint i] else none
  | .notifyUser, [.vint t, .vint o, .vint c, .vstr s] =>
    some [.vint t, .vint (pyBool o), .vint (pyBool c), .vstr s]
  | .notifyUserAck, [.vint v] =>
    if 0 ≤ v ∧ v ≤ 1 then some [.vint v] else none
  | _, _ => none

/-- The wire-shape family of a registered message class:
  * `basic toks conv`: a `BasicMessage` subclass whose last field is not a
    `str` (`toks` transliterates its `format=` string);
  * `basicStr toks conv`: a `BasicMessage` subclass whose last dataclass
    field is a `str`, consuming the rest of the buffer as UTF-8;
  * `strMsg`: a `StrMessage` subclass (a single `str` field covering the
    whole payload; `DebugLog` overrides both methods with the identical
    behaviour);
  * `empty`: an `EmptyMessage` subclass (its `__struct_unpack__` ignores
    the payload entirely and `__struct_pack__` returns no bytes). -/
inductive Shape
  | basic (toks : List Tok) (conv : Conv)
  | basicStr (toks : List Tok) (conv : Conv)
  | strMsg
  | empty
deriving DecidableEq, Repr

/-- `Message.__struct_pack__` of an instance with the given shape and
fields.  `None` models a raised exception:
  * `BasicMessage._str_field_name` does `dataclasses.fields(self)[-1]`,
    which raises `IndexError` when the dataclass has no fields (the
    `format=''` placeholder classes) — `nonPadCount toks = 0` exactly for
    those classes;
  * `struct.pack` raises on a non-int or out-of-range field;
  * `fields[-1].encode('utf-8')` raises if the last field is not a str. -/
def shapePack : Shape → List PyVal → Option (List Nat)
  | .empty, _ => some []
  | .strMsg, fs =>
    match fs with
    | [.vstr s] => some (utf8Encode s)
    | _ => none
  | .basic toks _, fs =>
    if nonPadCount toks = 0 then none else packToks toks fs
  | .basicStr toks _, fs =>
    match fs.getLast? with
    | some (.vstr s) => (packToks toks fs.dropLast).map (· ++ utf8Encode s)
    | _ => none

/-- `Message.__struct_unpack__` of a class with the given shape applied to
a payload (the packet minus its ID byte).  `None` models a raised
exception (wrapped into `UnpackError` by `msglib.unpack` and logged by
`PixelLink._recv_notify`).  For `basicStr`, the source splits the payload
as `blob[:l], blob[l:]` with `l = struct.calcsize(format)` and decodes the
tail as UTF-8. -/
def shapeUnpack : Shape → List Nat → Option (List PyVal)
  | .empty, _ => some []
  | .strMsg, body => (utf8Decode body).map (fun s => [.vstr s])
  | .basic toks conv, body =>
    if nonPadCount toks = 0 then none
    else (unpackToks toks body).bind (applyConv conv)
  | .basicStr toks conv, body =>
    (unpackToks toks (body.take (sizeToks toks))).bind fun pre =>
      (utf8Decode (body.drop (sizeToks toks))).bind fun s =>
        applyConv conv (pre ++ [.vstr s])

end Nat20

namespace Nat20

/-- The `format="BB1xLLHL BB BB"` of `IAmADie`, transliterated
(`B`=u8, `b`=i8, `H`=u16, `h`=i16, `L`=u32, `Nx`=pad N; whitespace in a
`struct` format is ignored). -/
def iAmADieToks : List Tok :=
  [.u8, .u8, .pad 1, .u32, .u32, .u16, .u32, .u8, .u8, .u8, .u8]

/-- The `format="50x BBBB bB hh BB"` of `Telemetry`, transliterated. -/
def telemetryToks : List Tok :=
  [.pad 50, .u8, .u8, .u8, .u8, .i8, .u8, .i16, .i16, .u8, .u8]

/-- The `format="BHLLBB"` of `Blink`, transliterated. -/
def blinkToks : List Tok := [.u8, .u16, .u32, .u32, .u8, .u8]

/-- Chunk 0 of the message table (ids 0..19). -/
def msgDefs0 : List (Nat × Shape) := [
  (0, .empty),                                    -- NoneMessage
  (1, .empty),                                    -- WhoAreYou
  (2, .basic iAmADieToks .iAmADie),               -- IAmADie "BB1xLLHL BB BB"
  (3, .basic [.u8, .u8] .rollState),              -- RollState "BB"
  (4, .basic telemetryToks .idc),                 -- Telemetry "50x BBBB bB hh BB"
  (5, .basic [] .idc),                            -- BulkSetup ""
  (6, .basic [] .idc),                            -- BulkSetupAck
  (7, .basic [] .idc),                            -- BulkData
  (8, .basic [] .idc),                            -- BulkDataAck
  (9, .basic [] .idc),                            -- TransferAnimationSet
  (10, .basic [] .idc),                           -- TransferAnimationSetAck
  (11, .basic [] .idc),                           -- TransferAnimationSetFinished
  (12, .basic [] .idc),                           -- TransferSettings
  (13, .basic [] .idc),                           -- TransferSettingsAck
  (14, .basic [] .idc),                           -- TransferSettingsFinished
  (15, .basic [] .idc),                           -- TransferTestAnimationSet
  (16, .basic [] .idc),                           -- TransferTestAnimationSetAck
  (17, .basic [] .idc),                           -- TransferTestAnimationSetFinished
  (18, .strMsg),                                  -- DebugLog
  (19, .basic [.u8, .u8, .u8] .idc)]              -- PlayAnimation "BBB"

/-- Chunk 1 of the message table (ids 20..39). -/
def msgDefs1 : List (Nat × Shape) := [
  (20, .basic [.u8, .u8, .u8] .idc),              -- PlayAnimationEvent "BBB"
  (21, .basic [.u8, .u8] .idc),                   -- StopAnimation "BB"
  (22, .basic [.u16] .idc),                       -- RemoteAction "H"
  (23, .empty),                                   -- RequestRollState
  (24, .basic [] .idc),                           -- RequestAnimationSet
  (25, .basic [] .idc),                           -- RequestSettings
  (26, .basic [] .idc),                           -- RequestTelemetry
  (27, .basic [] .idc),                           -- ProgramDefaultAnimationSet
  (28, .basic [] .idc),                           -- ProgramDefaultAnimationSetFinished
  (29, .basic blinkToks .idc),                    -- Blink "BHLLBB"
  (30, .empty),                                   -- BlinkAck
  (31, .basic [] .idc),                           -- RequestDefaultAnimationSetColor
  (32, .basic [] .idc),                           -- DefaultAnimationSetColor
  (33, .empty),                                   -- RequestBatteryLevel
  (34, .basic [.u8, .u8] .batteryLevel),          -- BatteryLevel "BB"
  (35, .basic [.u8, .u16] .requestRssi),          -- RequestRssi "BH"
  (36, .basic [.i8] .idc),                        -- Rssi "b"
  (37, .empty),                                   -- Calibrate
  (38, .basic [.u8] .idc),                        -- CalibrateFace "B"
  (39, .basicStr [.u8, .u8, .u8] .notifyUser)]    -- NotifyUser "BBB" + str

/-- Chunk 2 of the message table (ids 40..59). -/
def msgDefs2 : List (Nat × Shape) := [
  (40, .basic [.u8] .notifyUserAck),              -- NotifyUserAck "B"
  (41, .basic [] .idc),                           -- TestHardware
  (42, .basic [] .idc),                           -- TestLEDLoopback
  (43, .basic [] .idc),                           -- LedLoopback
  (44, .basic [] .idc),                           -- SetTopLevelState
  (45, .basic [] .idc),                           -- ProgramDefaultParameters
  (46, .basic [] .idc),                           -- ProgramDefaultParametersFinished
  (47, .basic [] .idc),                           -- SetDesignAndColor
  (48, .basic [] .idc),                           -- SetDesignAndColorAck
  (49, .basic [] .idc),                           -- SetCurrentBehavior
  (50, .basic [] .idc),                           -- SetCurrentBehaviorAck
  (51, .strMsg),                                  -- SetName
  (52, .empty),                                   -- SetNameAck
  (53, .basic [] .idc),                           -- Sleep
  (54, .basic [] .idc),                           -- ExitValidation
  (55, .basic [] .idc),                           -- TransferInstantAnimationSet
  (56, .basic [] .idc),                           -- TransferInstantAnimationSetAck
  (57, .basic [] .idc),                           -- TransferInstantAnimationSetFinished
  (58, .basic [] .idc),                           -- PlayInstantAnimation
  (59, .empty)]                                   -- StopAllAnimations

/-- Chunk 3 of the message table (ids 60..78). -/
def msgDefs3 : List (Nat × Shape) := [
  (60, .empty),                                   -- RequestTemperature
  (61, .basic [.i16, .i16] .idc),                 -- Temperature "hh"
  (62, .basic [] .idc),                           -- EnableCharging
  (63, .basic [] .idc),                           -- DisableCharging
  (64, .basic [] .idc),                           -- Discharge
  (65, .basic [.u8, .u8] .idc),                   -- BlinkId "BB"
  (66, .empty),                                   -- BlinkIdAck
  (67, .basic [] .idc),                           -- TransferTest
  (68, .basic [] .idc),                           -- TransferTestAck
  (69, .basic [] .idc),                           -- TransferTestFinished
  (70, .basic [] .idc),                           -- TestBulkSend
  (71, .basic [] .idc),                           -- TestBulkReceive
  (72, .basic [] .idc),                           -- SetAllLEDsToColor
  (73, .basic [] .idc),                           -- AttractMode
  (74, .basic [] .idc),                           -- PrintNormals
  (75, .basic [] .idc),                           -- PrintA2DReadings
  (76, .basic [] .idc),                           -- LightUpFace
  (77, .basic [] .idc),                           -- SetLEDToColor
  (78, .basic [] .idc)]                           -- DebugAnimationController

/-- The message classes of `nat20/messages.py`, as `(id, shape)` pairs in
definition order; each `format=` string is transliterated into `Tok`s. -/
def msgDefs : List (Nat × Shape) :=
  msgDefs0 ++ msgDefs1 ++ msgDefs2 ++ msgDefs3

/-- The global codec registry `nat20.msglib._messages`, populated once at
type-definition time by `Message.__init_subclass__` as `nat20/messages.py`
is imported. -/
def msglibRegistry (idn : Nat) : Option Shape :=
  msgDefs.lookup idn

/-- `msglib.pack(msg)`: `bytes([msgid(msg)]) + msg.__struct_pack__()`.
The shape of the instance's own class is recovered through the registry
(faithful for every registered class, the subject of the claims); `None`
models a raised exception. -/
def pack (m : MsgVal) : Option (List Nat) :=
  (msglibRegistry m.id).bind fun sh =>
    (shapePack sh m.fields).map (m.id :: ·)

/-- Result of `msglib.unpack`: success, `UnrecognizedMessageError`,
`UnpackError`, or the undocumented `IndexError` that `blob[0]` raises on a
zero-length blob (outside the `try` block, hence not wrapped). -/
inductive UnpackResult
  | ok (m : MsgVal)
  | unrecognized
  | unpackErr
  | indexErr
deriving DecidableEq, Repr

/-- `msglib.unpack(blob)`: `msgid, body = blob[0], blob[1:]`, registry
lookup (`UnrecognizedMessageError` on a miss), then
`msgcls.__struct_unpack__(body)` with any exception wrapped into
`UnpackError`. -/
def unpack : List Nat → UnpackResult
  | [] => .indexErr
  | b :: body =>
    match msglibRegistry b with
    | none => .unrecognized
    | some sh =>
      match shapeUnpack sh body with
      | some fs => .ok ⟨b, fs⟩
      | none => .unpackErr

end Nat20

namespace Nat20

/-- Does one value fit one value-carrying token with the value ranges that
`struct.pack` accepts? -/
def tokValid : Tok → PyVal → Bool
  | .u8, .vint n => decide (0 ≤ n ∧ n < 256)
  | .i8, .vint n => decide (-128 ≤ n ∧ n < 128)
  | .u16, .vint n => decide (0 ≤ n ∧ n < 65536)
  | .i16, .vint n => decide (-32768 ≤ n ∧ n < 32768)
  | .u32, .vint n => decide (0 ≤ n ∧ n < 4294967296)
  | _, _ => false

/-- Do the fields align with the format's value-carrying tokens, all in
range? -/
def fieldsValidFor : List Tok → List PyVal → Bool
  | [], [] => true
  | .pad _ :: ts, fs => fieldsValidFor ts fs
  | t :: ts, f :: fs => tokValid t f && fieldsValidFor ts fs
  | _, _ => false

/-- Are the field values valid for the class's declared field types: enum
fields carry an in-range enum value, `bool` fields carry 0 or 1? -/
def convValid : Conv → List PyVal → Bool
  | .idc, _ => true
  | .iAmADie, fs =>
    match fs with
    | [.vint _, .vint d, .vint _, .vint _, .vint _, .vint _,
       .vint rs, .vint _, .vint _, .vint bs] =>
      decide (0 ≤ d ∧ d ≤ 12 ∧ 0 ≤ rs ∧ rs ≤ 4 ∧ 0 ≤ bs ∧ bs ≤ 5)
    | _ => false
  | .rollState, fs =>
    match fs with
    | [.vint s, .vint _] => decide (0 ≤ s ∧ s ≤ 4)
    | _ => false
  | .batteryLevel, fs =>
    match fs with
    | [.vint _, .vint s] => decide (0 ≤ s ∧ s ≤ 5)
    | _ => false
  | .requestRssi, fs =>
    match fs with
    | [.vint m, .vint _] => decide (0 ≤ m ∧ m ≤ 2)
    | _ => false
  | .notifyUser, fs =>
    match fs with
    | [.vint _, .vint o, .vint c, .vstr _] =>
      decide ((o = 0 ∨ o = 1) ∧ (c = 0 ∨ c = 1))
    | _ => false
  | .notifyUserAck, fs =>
    match fs with
    | [.vint v] => decide (0 ≤ v ∧ v ≤ 1)
    | _ => false

/-- "Valid field values" for an instance of a message class of the given
shape: the fields are the declared number of ints within the ranges of the
class's `struct` codes (respectively a UTF-8 string for a trailing `str`
field), enum fields are in range, and `bool` fields are Boolean. -/
def validFields : Shape → List PyVal → Bool
  | .empty, fs => fs.isEmpty
  | .strMsg, fs =>
    match fs with
    | [.vstr _] => true
    | _ => false
  | .basic toks conv, fs => fieldsValidFor toks fs && convValid conv fs
  | .basicStr toks conv, fs =>
    match fs.getLast? with
    | some (.vstr _) => fieldsValidFor toks fs.dropLast && convValid conv fs
    | _ => false

/-- Message types for which `decode(encode(m)) = m` is broken by
construction: `IAmADie` (decode turns `build_timestamp` into a datetime
that encode cannot pack) and the zero-field `format=''` placeholder
classes (both directions raise via `_str_field_name`). -/
def roundTripExempt : Shape → Bool
  | .basic toks conv => conv == .iAmADie || nonPadCount toks == 0
  | _ => false

end Nat20

namespace Nat20

/-- Registration step of `msglib.Message.__init_subclass__` (the body of
`nat20/msglib.py` lines 109-113): `if id is not None: cls.__id = id;
_messages[id] = cls`.  The registry maps IDs to classes (class tags
modelled as `Nat`); there is no duplicate check, a reused ID overwrites. -/
def registerMessage (reg : Nat → Option Nat) (id : Option Nat) (cls : Nat) :
    Nat → Option Nat :=
  match id with
  | some i => Function.update reg i (some cls)
  | none => reg

/-- The registry `nat20.link._messages` that `PixelLink._recv_notify`
consults.  It is a module-global of `nat20/link.py`, distinct from
`nat20.msglib._messages`: the only subclass definitions that run its
`Message.__init_subclass__` are `link.BasicMessage` (declared with
`id=None`, hence skipped), while every concrete message class of
`nat20/messages.py` derives from `msglib.Message` and registers in the
msglib registry.  No concrete type is therefore ever registered here. -/
def linkMessages : Nat → Option Shape := fun _ => none

/-- Outcome of `PixelLink._recv_notify` for one inbound packet: the decoded
message is handed to `_dispatch`, or the packet is logged and dropped
(unknown ID / unpack failure), or `packet[0]` raises on an empty packet. -/
inductive RecvResult
  | dispatched (m : MsgVal)
  | droppedUnknown
  | droppedUnpackError
  | indexError
deriving DecidableEq, Repr

/-- `PixelLink._recv_notify` (`nat20/link.py` lines 172-189):
`msgid, blob = packet[0], packet[1:]`, lookup in `link._messages` (a miss
is logged as "Unknown message ID" and the packet dropped), then
`msgcls.__struct_unpack__(blob)` (an exception is logged and the packet
dropped), else `self._dispatch(msg)`. -/
def recv_notify (packet : List Nat) : RecvResult :=
  match packet with
  | [] => .indexError
  | b :: body =>
    match linkMessages b with
    | none => .droppedUnknown
    | some sh =>
      match shapeUnpack sh body with
      | some fs => .dispatched ⟨b, fs⟩
      | none => .droppedUnpackError

/-- The mutable dispatch state of a `PixelLink`: `_wait_queue` (FIFO lists
of pending futures, keyed by expected message class) and
`_message_handlers` (persistent subscriber lists, keyed by message class).
Classes are keyed by their message ID; futures and handlers are opaque
tags.  Both Python dicts are `defaultdict(list)`, so a missing key reads
as `[]`. -/
structure LinkState where
  waitQueue : Nat → List Nat
  handlers : Nat → List Nat

/-- What `PixelLink._dispatch` did with a message: fulfilled one waiter
future (`fut.set_result(message)`), or invoked the listed subscriber
handlers (each via `_call_or_task`) in registration order. -/
inductive DispatchAction
  | resolved (fut : Nat) (m : MsgVal)
  | broadcast (hs : List Nat) (m : MsgVal)
deriving DecidableEq, Repr

/-- `PixelLink._dispatch` (`nat20/link.py` lines 191-204): if
`_wait_queue[type(message)]` is non-empty, pop index 0 and fulfil it;
otherwise call every handler in `_message_handlers[type(message)]`. -/
def dispatch (st : LinkState) (m : MsgVal) : LinkState × DispatchAction :=
  match st.waitQueue m.id with
  | fut :: rest =>
    ({ st with waitQueue := Function.update st.waitQueue m.id rest },
     .resolved fut m)
  | [] => (st, .broadcast (st.handlers m.id) m)

/-- Waiter registration, as performed by `PixelLink._wait` and
`PixelLink._send_and_wait`: `self._wait_queue[respcls].append(fut)`. -/
def waitRegister (st : LinkState) (respId : Nat) (fut : Nat) : LinkState :=
  { st with
    waitQueue := Function.update st.waitQueue respId
      (st.waitQueue respId ++ [fut]) }

end Nat20

namespace Nat20

/-- The asyncio state of a future created by `_send_and_wait`/`_wait`:
pending, cancelled (cancelling a task that is awaiting a future cancels
that future), or already fulfilled. -/
inductive FutStatus
  | pending
  | cancelled
  | resolvedWith (m : MsgVal)
deriving DecidableEq, Repr

/-- A `PixelLink` dispatch state together with the asyncio status of each
future tag. -/
structure AsyncLink where
  st : LinkState
  futs : Nat → FutStatus

/-- The waiter-registration half of `PixelLink._send_and_wait`
(`nat20/link.py` lines 228-239): `fut = ...create_future();
self._wait_queue[respcls].append(fut)` (then the request is written and
the caller suspends on `await fut`). -/
def sendAndWaitStart (al : AsyncLink) (respId : Nat) (fut : Nat) : AsyncLink :=
  { st := waitRegister al.st respId fut
    futs := Function.update al.futs fut .pending }

/-- Cancellation of the caller that is suspended on `await fut` inside
`_send_and_wait`: asyncio cancels the awaited future.  `_send_and_wait`
has no cleanup handler (no `try`/`finally`), so `_wait_queue` is left
untouched — this function faithfully performs no queue removal. -/
def cancelAwaiter (al : AsyncLink) (fut : Nat) : AsyncLink :=
  { al with futs := Function.update al.futs fut .cancelled }

/-- Outcome of `_dispatch` at the asyncio level: a pending waiter future
was fulfilled; or `fut.set_result(message)` was called on a
non-pending (e.g. cancelled) future, which raises
`asyncio.InvalidStateError` out of `_dispatch` (and the message is lost);
or the message was broadcast to the listed handlers. -/
inductive AsyncOutcome
  | resolvedOk (fut : Nat)
  | invalidState (fut : Nat)
  | broadcast (hs : List Nat)
deriving DecidableEq, Repr

/-- `PixelLink._dispatch` with asyncio future semantics:
`fut.set_result(message)` succeeds only on a pending future and raises
`InvalidStateError` on a cancelled one.  Either way the future was already
popped from `_wait_queue`, and the handlers are never consulted when a
waiter was queued. -/
def dispatchAsync (al : AsyncLink) (m : MsgVal) : AsyncLink × AsyncOutcome :=
  match dispatch al.st m with
  | (st1, .resolved fut _) =>
    match al.futs fut with
    | .pending =>
      ({ st := st1, futs := Function.update al.futs fut (.resolvedWith m) },
       .resolvedOk fut)
    | _ => ({ al with st := st1 }, .invalidState fut)
  | (st1, .broadcast hs _) => ({ al with st := st1 }, .broadcast hs)

/-- An `AsyncLink` with empty queues, no handlers, and no live futures
(the state right after `PixelLink.__init__`; the status of unallocated
future tags is immaterial and defaults to `cancelled`). -/
def emptyLink : AsyncLink :=
  { st := { waitQueue := fun _ => [], handlers := fun _ => [] }
    futs := fun _ => .cancelled }

end Nat20

namespace Nat20

/-- The cached state of a `Pixel` facade (`nat20/__init__.py`): display
name, geometry, design, ID, firmware timestamp, last-known roll and
battery state.  Enum-valued caches are stored by numeric value and the
build timestamp as a `PyVal` datetime. -/
structure PixelState where
  name : String
  led_count : Int
  design_and_color : Int
  pixel_id : Int
  build_timestamp : PyVal
  roll_state : Int
  roll_face : Int
  batt_level : Int
  batt_state : Int
deriving DecidableEq, Repr

/-- The typed fields of an `IAmADie` response message. -/
structure IAmADieMsg where
  led_count : Int
  design_and_color : Int
  data_set_hash : Int
  pixel_id : Int
  available_flash : Int
  build_timestamp : PyVal
  roll_state : Int
  roll_face : Int
  batt_level : Int
  batt_state : Int
deriving DecidableEq, Repr

/-- `Pixel.who_are_you` (`nat20/__init__.py` lines 371-392), given the
`IAmADie` response `msg` obtained from the link: the eight cache-refresh
assignments, followed by `self.data_changed.trigger({...})` with the
literal set of field names written in the source.  Returns the updated
facade state and the emitted field-name set. -/
def who_are_you (p : PixelState) (msg : IAmADieMsg) : PixelState × List String :=
  ({ p with
      roll_state := msg.roll_state
      roll_face := msg.roll_face
      batt_state := msg.batt_state
      batt_level := msg.batt_level
      build_timestamp := msg.build_timestamp
      design_and_color := msg.design_and_color
      led_count := msg.led_count
      pixel_id := msg.pixel_id },
   ["roll_state", "roll_face", "batt_state", "batt_level",
    "build_timestamp", "design_and_color", "pixel_id"])

/-- The names of the facade fields that `who_are_you` refreshes from the
response (the eight assignment targets in `nat20/__init__.py` lines
377-386). -/
def whoAreYouRefreshed : List String :=
  ["roll_state", "roll_face", "batt_state", "batt_level",
   "build_timestamp", "design_and_color", "led_count", "pixel_id"]

/-- The `count` argument of `Pixel.blink`: a finite int, or the `...`
(Ellipsis) sentinel meaning "blink until cancelled". -/
inductive BlinkCount
  | finite (n : Int)
  | infinite
deriving DecidableEq, Repr

/-- Python `int(x)` on a float/rational: truncation toward zero. -/
def pyTrunc (q : ℚ) : Int := if 0 ≤ q then ⌊q⌋ else ⌈q⌉

/-- The `Blink` command dataclass (`nat20/messages.py` lines 385-396,
id=29, format `BHLLBB`). -/
structure BlinkMsg where
  count : Int
  duration : Int
  color : Int
  face_mask : Int
  fade : Int
  loop : Int
deriving DecidableEq, Repr

/-- `Pixel.blink` (`nat20/__init__.py` lines 428-463), up to the message it
sends: `loop, count = (1, 1) if count is ... else (0, count)`, then
`Blink(count=count, duration=int(count * duration * 1000), color=color,
face_mask=led_mask, fade=fade, loop=loop)`.  The requested duration is in
seconds. -/
def blink (color : Int) (count : BlinkCount) (duration : ℚ) (fade : Int)
    (led_mask : Int) : BlinkMsg :=
  let lc : Int × Int :=
    match count with
    | .infinite => (1, 1)
    | .finite n => (0, n)
  { count := lc.2
    duration := pyTrunc ((lc.2 : ℚ) * duration * 1000)
    color := color
    face_mask := led_mask
    fade := fade
    loop := lc.1 }

end Nat20

namespace Nat20

/-- The advertisement data bleak hands to the detection callback:
`local_name`, `manufacturer_data` (a dict keyed by 16-bit company IDs) and
`service_data` (a dict keyed by service UUID strings), each dict modelled
as an association list. -/
structure AdvData where
  local_name : String
  manufacturer_data : List (Nat × List Nat)
  service_data : List (String × List Nat)

/-- `nat20.constants.SERVICE_INFO`: the normalized 128-bit form of the
16-bit Device Information service UUID `180a`. -/
def SERVICE_INFO : String := "0000180a-0000-1000-8000-00805f9b34fb"

/-- A `ScanResult` snapshot (without the bleak device handle). -/
structure ScanSummary where
  name : String
  led_count : Int
  design_and_color : Int
  roll_state : Int
  roll_face : Int
  batt_state : Int
  batt_level : Int
  pixel_id : Int
  build_timestamp : PyVal
deriving DecidableEq, Repr

/-- `ScanResult._construct` (`nat20/__init__.py` lines 107-126):
`struct.unpack("<BBBBB", mdata)` and `struct.unpack("<II", sdata)`, then
`ScanBattState(batt >> 7)` / `batt & 0x7F` (for a byte, `>> 7` is division
by 128 and `& 0x7F` is mod 128), enum validation of design (0..12), roll
state (0..4) and battery state (0..1), and
`datetime.fromtimestamp(build, tz=utc)`.  `None` models a raised
exception (wrong blob size or enum value). -/
def construct (name : String) (mdata sdata : List Nat) : Option ScanSummary :=
  match unpackToks [.u8, .u8, .u8, .u8, .u8] mdata,
        unpackToks [.u32, .u32] sdata with
  | some [.vint led, .vint design, .vint rs, .vint face, .vint batt],
    some [.vint idv, .vint build] =>
    if 0 ≤ design ∧ design ≤ 12 ∧ 0 ≤ rs ∧ rs ≤ 4 ∧
       0 ≤ batt / 128 ∧ batt / 128 ≤ 1 then
      some { name := name
             led_count := led
             design_and_color := design
             roll_state := rs
             roll_face := face
             batt_state := batt / 128
             batt_level := batt % 128
             pixel_id := idv
             build_timestamp := .vdt build }
    else none
  | _, _ => none

/-- The detection callback inside `scan_for_dice` (`nat20/__init__.py`
lines 164-174): an advertisement qualifies only if `0xFFFF in
ad_data.manufacturer_data and SERVICE_INFO in ad_data.service_data`; a
qualifying advertisement is parsed by `ScanResult._construct` and queued
for the consumer. -/
def detected (ad : AdvData) : Option ScanSummary :=
  match ad.manufacturer_data.lookup 65535, ad.service_data.lookup SERVICE_INFO with
  | some md, some sd => construct ad.local_name md sd
  | _, _ => none

/-- `scan_for_dice` restricted to a finite advertisement stream: the
summaries the async generator yields, one per qualifying advertisement, in
order of appearance. -/
def scan_for_dice (ads : List AdvData) : List ScanSummary :=
  ads.filterMap detected

end Nat20

namespace Nat20

theorem sizeToks_nil : sizeToks [] = 0 := rfl

theorem sizeToks_cons (t : Tok) (ts : List Tok) :
    sizeToks (t :: ts) = tokSize t + sizeToks ts := by
  simp [sizeToks]

/-- A successfully packed token contributes exactly `tokSize` bytes. -/
theorem packTok_length (t : Tok) (f : PyVal) (bs : List Nat)
    (h : packTok t f = some bs) : bs.length = tokSize t := by
  cases t <;> cases f <;>
    simp only [packTok] at h <;>
    (try split at h) <;>
    first
      | (injection h with h2; subst h2; rfl)
      | simp_all [tokSize]

/-- `struct.pack` output length is `struct.calcsize`. -/
theorem packToks_length (toks : List Tok) :
    ∀ (fs : List PyVal) (bs : List Nat),
      packToks toks fs = some bs → bs.length = sizeToks toks := by
  induction toks with
  | nil =>
    intro fs bs h
    cases fs <;> simp [packToks] at h
    simp [h.symm, sizeToks_nil]
  | cons t ts ih =>
    intro fs bs h
    match t, fs with
    | .pad k, fs =>
      simp only [packToks] at h
      cases hrest : packToks ts fs with
      | none => rw [hrest] at h; simp at h
      | some rest =>
        rw [hrest] at h
        simp at h
        subst h
        have := ih fs rest hrest
        simp only [List.length_append, List.length_replicate, sizeToks_cons, tokSize]
        omega
    | .u8, [] | .i8, [] | .u16, [] | .i16, [] | .u32, [] =>
      simp [packToks] at h
    | .u8, f :: fs | .i8, f :: fs | .u16, f :: fs | .i16, f :: fs | .u32, f :: fs =>
      simp only [packToks] at h
      cases htb : packTok _ f with
      | none => rw [htb] at h; simp at h
      | some tb =>
        cases hrest : packToks ts fs with
        | none => rw [htb, hrest] at h; simp at h
        | some rest =>
          rw [htb, hrest] at h
          simp at h
          subst h
          have h1 := packTok_length _ f tb htb
          have h2 := ih fs rest hrest
          simp only [List.length_append, sizeToks_cons]
          omega

/-- `struct.unpack` succeeds only on a blob of length exactly
`struct.calcsize`. -/
theorem unpackToks_length (toks : List Tok) :
    ∀ (bs : List Nat) (fs : List PyVal),
      unpackToks toks bs = some fs → bs.length = sizeToks toks := by
  induction toks with
  | nil =>
    intro bs fs h
    cases bs <;> simp [unpackToks] at h <;> simp [sizeToks_nil]
  | cons t ts ih =>
    intro bs fs h
    match t, bs with
    | .pad k, bs =>
      simp only [unpackToks] at h
      split at h
      · have hlen := ih _ _ h
        rw [List.length_drop] at hlen
        simp only [sizeToks_cons, tokSize]
        omega
      · exact absurd h (by simp)
    | .u8, [] | .i8, [] | .u16, [] | .i16, [] | .u32, [] =>
      simp [unpackToks] at h
    | .u16, [b] | .i16, [b] | .u32, [b] =>
      simp [unpackToks] at h
    | .u32, [b0, b1] | .u32, [b0, b1, b2] =>
      simp [unpackToks] at h
    | .u8, b :: bs | .i8, b :: bs =>
      simp only [unpackToks] at h
      cases hrest : unpackToks ts bs with
      | none => rw [hrest] at h; simp at h
      | some rest =>
        have := ih bs rest hrest
        simp only [List.length_cons, sizeToks_cons, tokSize]
        omega
    | .u16, b0 :: b1 :: bs | .i16, b0 :: b1 :: bs =>
      simp only [unpackToks] at h
      cases hrest : unpackToks ts bs with
      | none => rw [hrest] at h; simp at h
      | some rest =>
        have := ih bs rest hrest
        simp only [List.length_cons, sizeToks_cons, tokSize]
        omega
    | .u32, b0 :: b1 :: b2 :: b3 :: bs =>
      simp only [unpackToks] at h
      cases hrest : unpackToks ts bs with
      | none => rw [hrest] at h; simp at h
      | some rest =>
        have := ih bs rest hrest
        simp only [List.length_cons, sizeToks_cons, tokSize]
        omega

/-- Contrapositive: a blob of the wrong length makes `struct.unpack`
fail. -/
theorem unpackToks_none (toks : List Tok) (bs : List Nat)
    (h : bs.length ≠ sizeToks toks) : unpackToks toks bs = none := by
  cases hu : unpackToks toks bs with
  | none => rfl
  | some fs => exact absurd (unpackToks_length toks bs fs hu) h

end Nat20

namespace Nat20

/-- Packing valid fields succeeds and unpacking the resulting bytes gives
the fields back: `struct.unpack` is a left inverse of `struct.pack` on
in-range values. -/
theorem packToks_unpackToks (toks : List Tok) :
    ∀ fs : List PyVal, fieldsValidFor toks fs = true →
      ∃ bs, packToks toks fs = some bs ∧ unpackToks toks bs = some fs := by
  induction toks with
  | nil =>
    intro fs hv
    cases fs with
    | nil => exact ⟨[], rfl, rfl⟩
    | cons f fs => simp [fieldsValidFor] at hv
  | cons t ts ih =>
    intro fs hv
    match t, fs with
    | .pad k, fs =>
      have hv' : fieldsValidFor ts fs = true := by
        simpa [fieldsValidFor] using hv
      obtain ⟨bs, hp, hu⟩ := ih fs hv'
      refine ⟨List.replicate k 0 ++ bs, ?_, ?_⟩
      · simp [packToks, hp]
      · have hk : k ≤ (List.replicate k 0 ++ bs).length := by
          simp [List.length_append, List.length_replicate]
        simp only [unpackToks, hk, if_pos]
        have hdrop : List.drop k (List.replicate k (0 : Nat) ++ bs) = bs := by
          simpa using List.drop_left (List.replicate k (0 : Nat)) bs
        rw [hdrop]
        exact hu
    | .u8, [] | .i8, [] | .u16, [] | .i16, [] | .u32, [] =>
      simp [fieldsValidFor] at hv
    | .u8, f :: fs =>
      obtain ⟨hvf, hv'⟩ := by simpa [fieldsValidFor] using hv
      match f, hvf with
      | .vint n, hvf =>
        have hn : 0 ≤ n ∧ n < 256 := by simpa [tokValid] using hvf
        obtain ⟨bs, hp, hu⟩ := ih fs hv'
        refine ⟨n.toNat :: bs, ?_, ?_⟩
        · simp [packToks, packTok, hn, hp]
        · simp only [unpackToks, hu, Option.map_some']
          congr 2
          exact congrArg PyVal.vint (Int.toNat_of_nonneg hn.1)
    | .i8, f :: fs =>
      obtain ⟨hvf, hv'⟩ := by simpa [fieldsValidFor] using hv
      match f, hvf with
      | .vint n, hvf =>
        have hn : -128 ≤ n ∧ n < 128 := by simpa [tokValid] using hvf
        obtain ⟨bs, hp, hu⟩ := ih fs hv'
        refine ⟨(n % 256).toNat :: bs, ?_, ?_⟩
        · simp [packToks, packTok, hn, hp]
        · simp only [unpackToks, hu, Option.map_some']
          congr 2
          refine congrArg PyVal.vint ?_
          simp only [sgn8]
          have h0 : (0 : Int) ≤ n % 256 := Int.emod_nonneg n (by norm_num)
          have h1 : n % 256 < 256 := Int.emod_lt_of_pos n (by norm_num)
          have h2 : ((n % 256).toNat : Int) = n % 256 := Int.toNat_of_nonneg h0
          split <;> omega
    | .u16, f :: fs =>
      obtain ⟨hvf, hv'⟩ := by simpa [fieldsValidFor] using hv
      match f, hvf with
      | .vint n, hvf =>
        have hn : 0 ≤ n ∧ n < 65536 := by simpa [tokValid] using hvf
        obtain ⟨bs, hp, hu⟩ := ih fs hv'
        refine ⟨n.toNat % 256 :: n.toNat / 256 :: bs, ?_, ?_⟩
        · simp [packToks, packTok, hn, hp]
        · simp only [unpackToks, hu, Option.map_some']
          congr 2
          refine congrArg PyVal.vint ?_
          have : n.toNat % 256 + 256 * (n.toNat / 256) = n.toNat := Nat.mod_add_div _ _
          have h2 : ((n.toNat : Int)) = n := Int.toNat_of_nonneg hn.1
          push_cast
          omega
    | .i16, f :: fs =>
      obtain ⟨hvf, hv'⟩ := by simpa [fieldsValidFor] using hv
      match f, hvf with
      | .vint n, hvf =>
        have hn : -32768 ≤ n ∧ n < 32768 := by simpa [tokValid] using hvf
        obtain ⟨bs, hp, hu⟩ := ih fs hv'
        refine ⟨(n % 65536).toNat % 256 :: (n % 65536).toNat / 256 :: bs, ?_, ?_⟩
        · simp [packToks, packTok, hn, hp]
        · simp only [unpackToks, hu, Option.map_some']
          congr 2
          refine congrArg PyVal.vint ?_
          simp only [sgn16]
          have h0 : (0 : Int) ≤ n % 65536 := Int.emod_nonneg n (by norm_num)
          have h1 : n % 65536 < 65536 := Int.emod_lt_of_pos n (by norm_num)
          have h2 : ((n % 65536).toNat : Int) = n % 65536 := Int.toNat_of_nonneg h0
          have h4 : (n % 65536).toNat % 256 + 256 * ((n % 65536).toNat / 256) =
              (n % 65536).toNat := Nat.mod_add_div _ _
          push_cast
          split <;> omega
    | .u32, f :: fs =>
      obtain ⟨hvf, hv'⟩ := by simpa [fieldsValidFor] using hv
      match f, hvf with
      | .vint n, hvf =>
        have hn : 0 ≤ n ∧ n < 4294967296 := by simpa [tokValid] using hvf
        obtain ⟨bs, hp, hu⟩ := ih fs hv'
        refine ⟨n.toNat % 256 :: n.toNat / 256 % 256 :: n.toNat / 65536 % 256 ::
                n.toNat / 16777216 :: bs, ?_, ?_⟩
        · simp [packToks, packTok, hn, hp]
        · simp only [unpackToks, hu, Option.map_some']
          congr 2
          refine congrArg PyVal.vint ?_
          have hlt : n.toNat < 4294967296 := by omega
          have h2 : ((n.toNat : Int)) = n := Int.toNat_of_nonneg hn.1
          push_cast
          omega

end Nat20

namespace Nat20

/-- A Lean `Char` always carries a valid Unicode scalar value. -/
theorem char_toNat_isValidChar (c : Char) : Nat.isValidChar c.toNat := by
  have h := c.valid
  rcases h with h | ⟨h1, h2⟩
  · exact Or.inl h
  · exact Or.inr ⟨h1, h2⟩

/-- Decoding the UTF-8 encoding of one valid scalar value at the head of a
byte stream yields that scalar and continues with the remaining bytes. -/
theorem utf8DecodeScalars_encodeChar (v : Nat) (hv : Nat.isValidChar v)
    (tail : List Nat) :
    utf8DecodeScalars (utf8EncodeChar v ++ tail) =
      (utf8DecodeScalars tail).map (v :: ·) := by
  have hcont : ∀ x : Nat, utf8Cont (128 + x % 64) = true := by
    intro x
    simp only [utf8Cont, Bool.and_eq_true, decide_eq_true_eq]
    omega
  unfold utf8DecodeScalars
  by_cases h1 : v < 128
  · simp only [utf8EncodeChar, if_pos h1, List.cons_append, List.nil_append]
    conv_lhs => rw [utf8Fold]
    simp only [reduceIte, if_pos h1]
  · by_cases h2 : v < 2048
    · simp only [utf8EncodeChar, if_neg h1, if_pos h2, List.cons_append,
        List.nil_append]
      have c1 : ¬(192 + v / 64 < 128) := by omega
      have c2 : ¬(192 + v / 64 < 192) := by omega
      have c3 : 192 + v / 64 < 224 := by omega
      have c5 : (192 + v / 64 - 192) * 64 + (128 + v % 64 - 128) = v := by omega
      have c6 : 128 ≤ v ∧ Nat.isValidChar v := ⟨by omega, hv⟩
      conv_lhs => rw [utf8Fold]
      simp only [reduceIte, if_neg c1, if_neg c2, if_pos c3]
      conv_lhs => rw [utf8Fold]
      simp only [reduceIte, hcont, if_true, c5, if_pos c6]
      rw [if_neg (show ¬(1 : Nat) = 0 by omega)]
    · by_cases h3 : v < 65536
      · simp only [utf8EncodeChar, if_neg h1, if_neg h2, if_pos h3,
          List.cons_append, List.nil_append]
        have c1 : ¬(224 + v / 4096 < 128) := by omega
        have c2 : ¬(224 + v / 4096 < 192) := by omega
        have c3 : ¬(224 + v / 4096 < 224) := by omega
        have c4 : 224 + v / 4096 < 240 := by omega
        have c5 : ((224 + v / 4096 - 224) * 64 + (128 + v / 64 % 64 - 128)) * 64 +
            (128 + v % 64 - 128) = v := by omega
        have c6 : 2048 ≤ v ∧ Nat.isValidChar v := ⟨by omega, hv⟩
        conv_lhs => rw [utf8Fold]
        simp only [reduceIte, if_neg c1, if_neg c2, if_neg c3, if_pos c4]
        conv_lhs => rw [utf8Fold]
        rw [if_neg (show ¬(2 : Nat) = 0 by omega)]
        simp only [reduceIte, hcont, if_true]
        rw [if_neg (show ¬(2 : Nat) = 1 by omega)]
        conv_lhs => rw [utf8Fold]
        rw [if_neg (show ¬(2 - 1 : Nat) = 0 by omega)]
        simp only [reduceIte, hcont, if_true, c5]
        rw [if_pos c6]
      · simp only [utf8EncodeChar, if_neg h1, if_neg h2, if_neg h3,
          List.cons_append, List.nil_append]
        have hlt : v < 1114112 := by
          rcases hv with h | ⟨ha, hb⟩ <;> omega
        have c1 : ¬(240 + v / 262144 < 128) := by omega
        have c2 : ¬(240 + v / 262144 < 192) := by omega
        have c3 : ¬(240 + v / 262144 < 224) := by omega
        have c4 : ¬(240 + v / 262144 < 240) := by omega
        have c5 : 240 + v / 262144 < 248 := by omega
        have c6 : (((240 + v / 262144 - 240) * 64 + (128 + v / 4096 % 64 - 128)) * 64 +
            (128 + v / 64 % 64 - 128)) * 64 + (128 + v % 64 - 128) = v := by omega
        have c7 : 65536 ≤ v ∧ Nat.isValidChar v := ⟨by omega, hv⟩
        conv_lhs => rw [utf8Fold]
        simp only [reduceIte, if_neg c1, if_neg c2, if_neg c3, if_neg c4, if_pos c5]
        conv_lhs => rw [utf8Fold]
        rw [if_neg (show ¬(3 : Nat) = 0 by omega)]
        simp only [reduceIte, hcont, if_true]
        rw [if_neg (show ¬(3 : Nat) = 1 by omega)]
        conv_lhs => rw [utf8Fold]
        rw [if_neg (show ¬(3 - 1 : Nat) = 0 by omega)]
        simp only [reduceIte, hcont, if_true]
        rw [if_neg (show ¬(3 - 1 : Nat) = 1 by omega)]
        conv_lhs => rw [utf8Fold]
        rw [if_neg (show ¬(3 - 1 - 1 : Nat) = 0 by omega)]
        simp only [reduceIte, hcont, if_true, c6]
        rw [if_pos c7]

/-- Decoding the UTF-8 encoding of a character list yields its scalar
values. -/
theorem utf8DecodeScalars_encode (cs : List Char) :
    utf8DecodeScalars ((cs.map (fun c => utf8EncodeChar c.toNat)).flatten) =
      some (cs.map Char.toNat) := by
  induction cs with
  | nil => rfl
  | cons c cs ih =>
    simp only [List.map_cons, List.flatten_cons]
    rw [utf8DecodeScalars_encodeChar c.toNat (char_toNat_isValidChar c)]
    simp [ih]

/-- Turning scalar values of characters back into characters succeeds and
returns the original characters. -/
theorem scalarsToString_map_toNat (cs : List Char) :
    scalarsToString (cs.map Char.toNat) = some ⟨cs⟩ := by
  have hmap : ∀ l : List Char,
      (l.map Char.toNat).mapM
        (fun v => if Nat.isValidChar v then some (Char.ofNat v) else none) =
      some l := by
    intro l
    induction l with
    | nil => rfl
    | cons c l ih =>
      simp only [List.map_cons, List.mapM_cons, ih,
        if_pos (char_toNat_isValidChar c), Char.ofNat_toNat]
      rfl
  simp only [scalarsToString, hmap, Option.map_some']

/-- `bytes.decode('utf-8')` inverts `str.encode('utf-8')`. -/
theorem utf8Decode_encode (s : String) : utf8Decode (utf8Encode s) = some s := by
  obtain ⟨cs⟩ := s
  show utf8Decode ((cs.map (fun c => utf8EncodeChar c.toNat)).flatten) = some ⟨cs⟩
  unfold utf8Decode
  rw [utf8DecodeScalars_encode]
  simp only [Option.some_bind]
  exact scalarsToString_map_toNat cs

end Nat20

namespace Nat20

theorem applyConv_of_valid (conv : Conv) (fs : List PyVal)
    (hC : conv ≠ .iAmADie) (hv : convValid conv fs = true) :
    applyConv conv fs = some fs := by
  cases conv with
  | idc => rfl
  | iAmADie => exact absurd rfl hC
  | rollState =>
    simp only [convValid] at hv
    split at hv
    · simp only [decide_eq_true_eq] at hv
      simp [applyConv, hv]
    · simp at hv
  | batteryLevel =>
    simp only [convValid] at hv
    split at hv
    · simp only [decide_eq_true_eq] at hv
      simp [applyConv, hv]
    · simp at hv
  | requestRssi =>
    simp only [convValid] at hv
    split at hv
    · simp only [decide_eq_true_eq] at hv
      simp [applyConv, hv]
    · simp at hv
  | notifyUserAck =>
    simp only [convValid] at hv
    split at hv
    · simp only [decide_eq_true_eq] at hv
      simp [applyConv, hv]
    · simp at hv
  | notifyUser =>
    simp only [convValid] at hv
    split at hv
    · simp only [decide_eq_true_eq] at hv
      obtain ⟨h1, h2⟩ := hv
      rcases h1 with h1 | h1 <;> rcases h2 with h2 | h2 <;>
        simp [applyConv, pyBool, h1, h2]
    · simp at hv

end Nat20

namespace Nat20

/-- Core round-trip at shape level: for a non-exempt shape and valid
fields, `__struct_pack__` succeeds and `__struct_unpack__` recovers the
fields exactly. -/
theorem shape_roundtrip (sh : Shape) (fs : List PyVal)
    (hex : roundTripExempt sh = false) (hv : validFields sh fs = true) :
    ∃ payload, shapePack sh fs = some payload ∧
      shapeUnpack sh payload = some fs := by
  cases sh with
  | empty =>
    have hfs : fs = [] := by
      simpa [validFields, List.isEmpty_iff] using hv
    subst hfs
    exact ⟨[], rfl, rfl⟩
  | strMsg =>
    simp only [validFields] at hv
    split at hv
    · rename_i s
      refine ⟨utf8Encode s, rfl, ?_⟩
      simp [shapeUnpack, utf8Decode_encode]
    · simp at hv
  | basic toks conv =>
    simp only [roundTripExempt, Bool.or_eq_false_iff, beq_eq_false_iff_ne] at hex
    obtain ⟨h1, h2⟩ := hex
    simp only [validFields, Bool.and_eq_true] at hv
    obtain ⟨hvf, hvc⟩ := hv
    obtain ⟨bs, hp, hu⟩ := packToks_unpackToks toks fs hvf
    refine ⟨bs, ?_, ?_⟩
    · simp [shapePack, h2, hp]
    · simp [shapeUnpack, h2, hu, applyConv_of_valid conv fs h1 hvc]
  | basicStr toks conv =>
    simp only [validFields] at hv
    split at hv
    · rename_i s heq
      simp only [Bool.and_eq_true] at hv
      obtain ⟨hvf, hvc⟩ := hv
      have h1 : conv ≠ .iAmADie := by
        intro h
        subst h
        simp only [convValid] at hvc
        split at hvc
        · simp at heq
        · simp at hvc
      obtain ⟨bs, hp, hu⟩ := packToks_unpackToks toks fs.dropLast hvf
      have hfs : fs.dropLast ++ [PyVal.vstr s] = fs :=
        List.dropLast_append_getLast? _ heq
      have hlen : bs.length = sizeToks toks := packToks_length toks fs.dropLast bs hp
      refine ⟨bs ++ utf8Encode s, ?_, ?_⟩
      · simp only [shapePack, heq, hp, Option.map_some']
      · have htake : (bs ++ utf8Encode s).take (sizeToks toks) = bs := by
          rw [← hlen, List.take_left]
        have hdrop : (bs ++ utf8Encode s).drop (sizeToks toks) = utf8Encode s := by
          rw [← hlen, List.drop_left]
        simp only [shapeUnpack, htake, hdrop, hu, Option.some_bind,
          utf8Decode_encode, hfs, applyConv_of_valid conv fs h1 hvc]
    · simp at hv

end Nat20

namespace Nat20

/-- C10: decoding a zero-length byte string via `msglib.unpack` raises
`IndexError` from `blob[0]` on the empty buffer (before the `try` block),
not `UnrecognizedMessageError` or `UnpackError`. -/
theorem C10_empty_blob_index_error : unpack [] = .indexErr := rfl

/-- C1: the claim says `PixelLink._recv_notify` decodes inbound packets
via the global codec registry populated at type-definition time
(`msglib._messages`) and dispatches them.  In the code, `_recv_notify`
consults `nat20.link._messages`, a distinct module-global that no concrete
message class ever populates (all of `nat20/messages.py` registers in
`nat20.msglib._messages`), so even a packet whose ID is registered in the
codec registry and whose payload is valid — here a `RollState` packet
`03 01 03` — is logged as an unknown ID and dropped instead of being
dispatched. -/
theorem C1_recv_notify_drops_registered_packet :
    msglibRegistry 3 = some (.basic [.u8, .u8] .rollState) ∧
    unpack [3, 1, 3] = .ok ⟨3, [.vint 1, .vint 3]⟩ ∧
    linkMessages 3 = none ∧
    recv_notify [3, 1, 3] = .droppedUnknown :=
  ⟨by decide, by decide, rfl, by decide⟩

/-- C5 (counterexample): decoding a packet for the empty-payload type
`WhoAreYou` (id 1) with one extra trailing byte does not raise
`UnpackError` — `EmptyMessage.__struct_unpack__` ignores the payload and
decoding succeeds, contrary to the claim that every fixed-size type
(including zero-byte types) rejects a payload-length mismatch. -/
theorem C5_trailing_byte_counterexample :
    unpack [1, 170] = .ok ⟨1, []⟩ ∧ unpack [1, 170] ≠ .unpackErr := by
  constructor
  · decide
  · decide

/-- C5 (amended): for every registered fixed-layout (`BasicMessage`)
message type, decoding a payload whose length differs from the layout's
size — truncated or with extra trailing bytes — raises `UnpackError`
(the zero-field `format=''` placeholder types raise `UnpackError` on
every decode, so on mismatches in particular); empty-payload
(`EmptyMessage`) types are the exception: their decode ignores the
payload entirely, so any payload length is accepted. -/
theorem C5_fixed_length_mismatch_unpack_error :
    (∀ (idn : Nat) (toks : List Tok) (conv : Conv) (payload : List Nat),
      msglibRegistry idn = some (.basic toks conv) →
      payload.length ≠ sizeToks toks →
      unpack (idn :: payload) = .unpackErr) ∧
    (∀ (idn : Nat) (payload : List Nat),
      msglibRegistry idn = some .empty →
      unpack (idn :: payload) = .ok ⟨idn, []⟩) := by
  constructor
  · intro idn toks conv payload hreg hlen
    simp only [unpack, hreg]
    by_cases hnp : nonPadCount toks = 0
    · simp [shapeUnpack, hnp]
    · simp [shapeUnpack, hnp, unpackToks_none toks payload hlen]
  · intro idn payload hreg
    simp only [unpack, hreg]
    rfl

/-- C5 (witness): a truncated `RollState` payload (1 byte instead of 2)
raises `UnpackError`, a 1-byte payload for the zero-field `BulkSetup`
(layout size 0) raises `UnpackError`, and a `WhoAreYou` packet with a
trailing byte decodes fine. -/
theorem C5_fixed_length_mismatch_witness :
    unpack [3, 1] = .unpackErr ∧ unpack [5, 0] = .unpackErr ∧
    unpack [1, 170] = .ok ⟨1, []⟩ :=
  ⟨C5_fixed_length_mismatch_unpack_error.1 3 [.u8, .u8] .rollState [1]
      (by decide) (by decide),
   C5_fixed_length_mismatch_unpack_error.1 5 [] .idc [0]
      (by decide) (by decide),
   C5_fixed_length_mismatch_unpack_error.2 1 [170] (by decide)⟩

/-- C6 (counterexample): registering a second message class under the
already-used ID 5 does not fail — `Message.__init_subclass__` has no
duplicate check, so the second registration succeeds and silently
replaces the first. -/
theorem C6_duplicate_id_counterexample :
    registerMessage (registerMessage (fun _ => none) (some 5) 10) (some 5) 20 5 =
      some 20 ∧
    registerMessage (fun _ => none) (some 5) 10 5 = some 10 := by
  constructor
  · simp [registerMessage, Function.update]
  · simp [registerMessage, Function.update]

/-- C6 (amended): registering a concrete message type under an ID that is
already associated with another type succeeds and silently replaces the
earlier registration (`_messages[id] = cls` with no check); other IDs are
unaffected, and a class declared with `id=None` is not registered at
all. -/
theorem C6_register_silently_replaces (reg : Nat → Option Nat) (i cls : Nat) :
    registerMessage reg (some i) cls i = some cls ∧
    (∀ j, j ≠ i → registerMessage reg (some i) cls j = reg j) ∧
    registerMessage reg none cls = reg := by
  refine ⟨?_, ?_, rfl⟩
  · simp [registerMessage, Function.update]
  · intro j hj
    simp [registerMessage, Function.update, hj]

/-- C6 (witness): concrete replacement of ID 5 while ID 6 is untouched. -/
theorem C6_register_silently_replaces_witness :
    registerMessage (registerMessage (fun _ => none) (some 5) 10) (some 5) 20 5 =
      some 20 ∧
    registerMessage (registerMessage (fun _ => none) (some 5) 10) (some 5) 20 6 =
      registerMessage (fun _ => none) (some 5) 10 6 :=
  ⟨(C6_register_silently_replaces (registerMessage (fun _ => none) (some 5) 10)
      5 20).1,
   (C6_register_silently_replaces (registerMessage (fun _ => none) (some 5) 10)
      5 20).2.1 6 (by decide)⟩

end Nat20

namespace Nat20

/-- C2: for every dispatched inbound message of type T: if at least one
waiter is queued for T, exactly the oldest waiter is resolved with the
message, it is removed from the queue (other queues untouched), and no
subscriber is invoked; if no waiter is queued, every registered subscriber
for T is invoked in order and the state is unchanged.  Exactly one of the
two paths runs (the dispatch action is a single constructor).  Waiters
registered first are resolved first (FIFO). -/
theorem C2_dispatch_waiter_xor_subscribers (st : LinkState) (m : MsgVal) :
    (∀ fut rest, st.waitQueue m.id = fut :: rest →
      dispatch st m =
        (⟨Function.update st.waitQueue m.id rest, st.handlers⟩,
         .resolved fut m)) ∧
    (st.waitQueue m.id = [] →
      dispatch st m = (st, .broadcast (st.handlers m.id) m)) ∧
    (∀ fut1 fut2 m2, m2.id = m.id → st.waitQueue m.id = [] →
      (dispatch (waitRegister (waitRegister st m.id fut1) m.id fut2) m).2 =
        .resolved fut1 m ∧
      (dispatch
        ((dispatch (waitRegister (waitRegister st m.id fut1) m.id fut2) m).1)
        m2).2 = .resolved fut2 m2) := by
  refine ⟨?_, ?_, ?_⟩
  · intro fut rest h
    simp [dispatch, h]
  · intro h
    simp [dispatch, h]
  · intro fut1 fut2 m2 hid h
    have hq : (waitRegister (waitRegister st m.id fut1) m.id fut2).waitQueue m.id =
        [fut1, fut2] := by
      simp [waitRegister, Function.update_same, h]
    constructor
    · simp [dispatch, hq]
    · simp [dispatch, hq, hid, Function.update_same]

/-- C2 (witness): with one waiter (future 5) queued for `RollState` and a
subscriber 9 registered, an inbound `RollState` resolves future 5; with no
waiter, the same message is broadcast to subscriber 9. -/
theorem C2_dispatch_witness :
    (dispatch ⟨Function.update (fun _ => []) 3 [5], fun _ => [9]⟩
        ⟨3, [.vint 1, .vint 3]⟩).2 = .resolved 5 ⟨3, [.vint 1, .vint 3]⟩ ∧
    dispatch ⟨fun _ => [], fun _ => [9]⟩ ⟨3, [.vint 1, .vint 3]⟩ =
      (⟨fun _ => [], fun _ => [9]⟩, .broadcast [9] ⟨3, [.vint 1, .vint 3]⟩) := by
  constructor
  · rw [(C2_dispatch_waiter_xor_subscribers
        ⟨Function.update (fun _ => []) 3 [5], fun _ => [9]⟩
        ⟨3, [.vint 1, .vint 3]⟩).1 5 [] (by simp [Function.update])]
  · exact (C2_dispatch_waiter_xor_subscribers
        ⟨fun _ => [], fun _ => [9]⟩ ⟨3, [.vint 1, .vint 3]⟩).2.1 rfl

/-- C3 (counterexample): `decode(encode(m)) == m` fails for registered
types.  For an `IAmADie` instance with valid field values (raw int
timestamp), decoding the encoding yields a datetime-valued
`build_timestamp`, so the result differs from `m`; and for the zero-field
placeholder `BulkSetup` (id 5), encoding raises outright
(`_str_field_name` indexes an empty field list). -/
theorem C3_roundtrip_counterexample :
    validFields (.basic iAmADieToks .iAmADie)
      [.vint 20, .vint 11, .vint 0, .vint 116427354, .vint 0,
       .vint 1686669079, .vint 1, .vint 10, .vint 72, .vint 0] = true ∧
    (pack ⟨2, [.vint 20, .vint 11, .vint 0, .vint 116427354, .vint 0,
               .vint 1686669079, .vint 1, .vint 10, .vint 72, .vint 0]⟩).map unpack =
      some (.ok ⟨2, [.vint 20, .vint 11, .vint 0, .vint 116427354, .vint 0,
                     .vdt 1686669079, .vint 1, .vint 10, .vint 72, .vint 0]⟩) ∧
    (⟨2, [.vint 20, .vint 11, .vint 0, .vint 116427354, .vint 0,
          .vdt 1686669079, .vint 1, .vint 10, .vint 72, .vint 0]⟩ : MsgVal) ≠
      ⟨2, [.vint 20, .vint 11, .vint 0, .vint 116427354, .vint 0,
           .vint 1686669079, .vint 1, .vint 10, .vint 72, .vint 0]⟩ ∧
    msglibRegistry 5 = some (.basic [] .idc) ∧
    validFields (.basic [] .idc) [] = true ∧
    pack ⟨5, []⟩ = none := by
  refine ⟨by decide, by decide, by decide, by decide, by decide, by decide⟩

/-- C3 (amended): for every registered message type except `IAmADie`
(whose decode converts `build_timestamp` to a UTC datetime while encode
requires the raw integer) and the zero-field `format=''` placeholder types
(whose pack and unpack both raise), and for every instance with valid
field values, encoding succeeds and decoding the encoding yields a message
equal to the original: `decode(encode(m)) == m`. -/
theorem C3_roundtrip_amended (idn : Nat) (sh : Shape) (fs : List PyVal)
    (hreg : msglibRegistry idn = some sh)
    (hex : roundTripExempt sh = false)
    (hv : validFields sh fs = true) :
    ∃ blob, pack ⟨idn, fs⟩ = some blob ∧ unpack blob = .ok ⟨idn, fs⟩ := by
  obtain ⟨payload, hp, hu⟩ := shape_roundtrip sh fs hex hv
  refine ⟨idn :: payload, ?_, ?_⟩
  · simp [pack, hreg, hp]
  · simp [unpack, hreg, hu]

/-- C3 (witness): the round trip at a concrete `RollState` message. -/
theorem C3_roundtrip_amended_witness :
    ∃ blob, pack ⟨3, [.vint 1, .vint 3]⟩ = some blob ∧
      unpack blob = .ok ⟨3, [.vint 1, .vint 3]⟩ :=
  C3_roundtrip_amended 3 (.basic [.u8, .u8] .rollState) [.vint 1, .vint 3]
    (by decide) (by decide) (by decide)

/-- C8: `Pixel.blink` with the infinite-count sentinel (`...`) builds a
`Blink` command with loop flag 1 and count field 1, regardless of the
requested duration; with a finite count n it builds loop flag 0 and count
field n. -/
theorem C8_blink_infinite_sentinel (color : Int) (duration : ℚ) (fade : Int)
    (led_mask : Int) (n : Int) :
    (blink color .infinite duration fade led_mask).loop = 1 ∧
    (blink color .infinite duration fade led_mask).count = 1 ∧
    (blink color (.finite n) duration fade led_mask).loop = 0 ∧
    (blink color (.finite n) duration fade led_mask).count = n :=
  ⟨rfl, rfl, rfl, rfl⟩

end Nat20

namespace Nat20

/-- C4: the claim says `who_are_you` refreshes every cached facade field
from the `IAmADie` response and emits a data-changed notification listing
every refreshed field.  The code refreshes eight fields — including
`led_count` — but the emitted set contains only seven names:
`led_count` is missing, although the source comment says these fields are
deliberately included.  Here the facade state is refreshed (led_count
0 → 20) while the emitted field set omits `"led_count"`. -/
theorem C4_who_are_you_omits_led_count :
    (who_are_you ⟨"Francis", 0, 5, 1, .vdt 0, 0, 0, 0, 0⟩
        ⟨20, 11, 0, 116427354, 0, .vdt 1686669079, 1, 10, 72, 0⟩).1 =
      ⟨"Francis", 20, 11, 116427354, .vdt 1686669079, 1, 10, 72, 0⟩ ∧
    (who_are_you ⟨"Francis", 0, 5, 1, .vdt 0, 0, 0, 0, 0⟩
        ⟨20, 11, 0, 116427354, 0, .vdt 1686669079, 1, 10, 72, 0⟩).2 =
      ["roll_state", "roll_face", "batt_state", "batt_level",
       "build_timestamp", "design_and_color", "pixel_id"] ∧
    "led_count" ∈ whoAreYouRefreshed ∧
    "led_count" ∉ (who_are_you ⟨"Francis", 0, 5, 1, .vdt 0, 0, 0, 0, 0⟩
        ⟨20, 11, 0, 116427354, 0, .vdt 1686669079, 1, 10, 72, 0⟩).2 := by
  refine ⟨rfl, rfl, by decide, by decide⟩

/-- C7: the claim says a caller cancelled while awaiting `_send_and_wait`
has its queued waiter removed, so a later inbound message of that type is
never delivered to the abandoned slot.  The code has no cancellation
cleanup: after registering future 0 for `RollState` (id 3) and cancelling
the awaiting caller, the future is still queued; the next inbound
`RollState` message pops the abandoned future, `fut.set_result` raises
`InvalidStateError`, the message is lost, and subscriber 7 is never
invoked. -/
theorem C7_cancelled_waiter_not_removed :
    (cancelAwaiter (sendAndWaitStart
        ⟨⟨fun _ => [], fun _ => [7]⟩, fun _ => .cancelled⟩ 3 0) 0).st.waitQueue 3 =
      [0] ∧
    (dispatchAsync (cancelAwaiter (sendAndWaitStart
        ⟨⟨fun _ => [], fun _ => [7]⟩, fun _ => .cancelled⟩ 3 0) 0)
      ⟨3, [.vint 1, .vint 3]⟩).2 = .invalidState 0 ∧
    (dispatchAsync (cancelAwaiter (sendAndWaitStart
        ⟨⟨fun _ => [], fun _ => [7]⟩, fun _ => .cancelled⟩ 3 0) 0)
      ⟨3, [.vint 1, .vint 3]⟩).1.st.waitQueue 3 = [] := by
  refine ⟨by decide, by decide, by decide⟩

/-- C9: from an advertisement stream with one advertisement lacking the
manufacturer-data key and service-data blob and one carrying both,
discovery yields exactly one summary; parsing manufacturer bytes
`14 0b 01 0a 48` with service-data bytes `5a 8a f0 06 17 87 88 64` yields
led_count 20, design 11 (MidnightGalaxy), roll state 1 (OnFace) on face
10, battery 72% not charging, pixel id 0x06f08a5a, and a build timestamp
of unix epoch second 0x64888717 in UTC. -/
theorem C9_scan_example :
    scan_for_dice
      [⟨"junk", [], []⟩,
       ⟨"Francis", [(65535, [0x14, 0x0b, 0x01, 0x0a, 0x48])],
        [(SERVICE_INFO, [0x5a, 0x8a, 0xf0, 0x06, 0x17, 0x87, 0x88, 0x64])]⟩] =
      [⟨"Francis", 20, 11, 1, 10, 0, 72, 0x06f08a5a, .vdt 0x64888717⟩] := by
  decide

end Nat20
